import Mathlib

/-!
Verification of the event-decoding core of `touchpadlib.c` (io-touchpad).

The embedding models `fetch_touchpad_event` (touchpadlib.c:723-762),
`reset_touchpad_event` (touchpadlib.c:694-701) and the inline axis
classification at touchpadlib.c:751-759.  A call to `read` is modelled by
its return value `rd : Int` (the number of bytes read, negative on error)
together with the list of `input_event` records that the kernel placed in
the buffer.
-/

namespace Touchpadlib

/-! Constants from `linux/input.h` as used by touchpadlib.c. -/

def EV_SYN : Nat := 0
def EV_KEY : Nat := 1
def EV_REL : Nat := 2
def EV_ABS : Nat := 3
def ABS_X : Nat := 0
def ABS_Y : Nat := 1
def ABS_PRESSURE : Nat := 24
def SYN_REPORT : Nat := 0

/-- `sizeof(struct input_event)` on 64-bit Linux: `struct timeval`
(two 64-bit longs, 16 bytes) plus `__u16 type`, `__u16 code`,
`__s32 value` (8 bytes). -/
def sizeof_input_event : Int := 24

/-- One raw record of `struct input_event`: timestamp (`time.tv_sec`,
`time.tv_usec`), event `type`, `code` and signed `value`. -/
structure input_event where
  tv_sec : Int
  tv_usec : Int
  type : Nat
  code : Nat
  value : Int
  deriving DecidableEq, Repr

/-- `struct touchpad_event` from touchpadlib.h: the decoded sample.
The sentinel `-1` in `x`, `y`, `pressure` means "absent". -/
structure touchpad_event where
  x : Int
  y : Int
  pressure : Int
  seconds : Int
  useconds : Int
  deriving DecidableEq, Repr

/-- `reset_touchpad_event` (touchpadlib.c:694-701): sets every axis field
to the sentinel `-1` and the timestamp to zero, ignoring prior contents. -/
def reset_touchpad_event (_event : touchpad_event) : touchpad_event :=
  { x := -1, y := -1, pressure := -1, seconds := 0, useconds := 0 }

/-- The four possible outcomes of classifying a raw event. -/
inductive Axis where
  | X
  | Y
  | Pressure
  | None
  deriving DecidableEq, Repr

/-- `classify_axis` — the axis classification performed inline at
touchpadlib.c:751-759: an `EV_ABS` event with code `ABS_X`, `ABS_Y` or
`ABS_PRESSURE` selects the corresponding tracked field; every other
(type, code) pair is irrelevant. -/
def classify_axis (type code : Nat) : Axis :=
  if type = EV_ABS then
    if code = ABS_X then Axis.X
    else if code = ABS_Y then Axis.Y
    else if code = ABS_PRESSURE then Axis.Pressure
    else Axis.None
  else Axis.None

/-- The body of the loop at touchpadlib.c:751-759 for one event: overwrite
the tracked field selected by the event's (type, code), if any. -/
def apply_event (event : touchpad_event) (ev : input_event) : touchpad_event :=
  if ev.type = EV_ABS then
    if ev.code = ABS_X then { event with x := ev.value }
    else if ev.code = ABS_Y then { event with y := ev.value }
    else if ev.code = ABS_PRESSURE then { event with pressure := ev.value }
    else event
  else event

/-- The loop at touchpadlib.c:739-760 restricted to the axis updates:
left fold of `apply_event` over the processed events. -/
def process_batch (event : touchpad_event) : List input_event → touchpad_event
  | [] => event
  | ev :: rest => process_batch (apply_event event ev) rest

/-- `fetch_touchpad_event` (touchpadlib.c:723-762).  `rd` is the byte count
returned by `read`, `buf` the records the kernel wrote into `ev[64]`, and
`event` the caller's output record.  Returns the C status code together
with the final contents of `*event`.  The loop runs for
`i < rd / sizeof(struct input_event)` and takes the timestamp from the
first iteration only. -/
def fetch_touchpad_event (rd : Int) (buf : List input_event)
    (event : touchpad_event) : Nat × touchpad_event :=
  if rd < sizeof_input_event then
    (1, event)
  else
    let processed := buf.take (rd.toNat / sizeof_input_event.toNat)
    let e0 := reset_touchpad_event event
    let e1 :=
      match processed with
      | [] => e0
      | f :: _ => { e0 with seconds := f.tv_sec, useconds := f.tv_usec }
    (0, process_batch e1 processed)

/-- The pure decoding of a list of processed records, starting from a
freshly reset sample (independent of the caller's prior record). -/
def decode_batch (evs : List input_event) : touchpad_event :=
  let e0 : touchpad_event :=
    { x := -1, y := -1, pressure := -1, seconds := 0, useconds := 0 }
  let e1 :=
    match evs with
    | [] => e0
    | f :: _ => { e0 with seconds := f.tv_sec, useconds := f.tv_usec }
  process_batch e1 evs

/-! Helper lemmas about the fold. -/

theorem process_batch_append (e : touchpad_event) (l1 l2 : List input_event) :
    process_batch e (l1 ++ l2) = process_batch (process_batch e l1) l2 := by
  induction l1 generalizing e with
  | nil => rfl
  | cons a t ih =>
      simp only [List.cons_append, process_batch]
      exact ih (apply_event e a)

theorem apply_event_seconds (e : touchpad_event) (ev : input_event) :
    (apply_event e ev).seconds = e.seconds ∧ (apply_event e ev).useconds = e.useconds := by
  unfold apply_event
  split_ifs <;> exact ⟨rfl, rfl⟩

theorem process_batch_seconds (e : touchpad_event) (l : List input_event) :
    (process_batch e l).seconds = e.seconds ∧ (process_batch e l).useconds = e.useconds := by
  induction l generalizing e with
  | nil => exact ⟨rfl, rfl⟩
  | cons a t ih =>
      simp only [process_batch]
      rw [(ih (apply_event e a)).1, (ih (apply_event e a)).2,
        (apply_event_seconds e a).1, (apply_event_seconds e a).2]
      exact ⟨rfl, rfl⟩

theorem apply_event_x (e : touchpad_event) (ev : input_event)
    (h : ¬(ev.type = EV_ABS ∧ ev.code = ABS_X)) :
    (apply_event e ev).x = e.x := by
  unfold apply_event
  split_ifs with h1 h2 h3 h4 <;> first | rfl | exact absurd ⟨h1, h2⟩ h

theorem apply_event_y (e : touchpad_event) (ev : input_event)
    (h : ¬(ev.type = EV_ABS ∧ ev.code = ABS_Y)) :
    (apply_event e ev).y = e.y := by
  unfold apply_event
  split_ifs with h1 h2 h3 h4 <;> first | rfl | exact absurd ⟨h1, h3⟩ h

theorem apply_event_pressure (e : touchpad_event) (ev : input_event)
    (h : ¬(ev.type = EV_ABS ∧ ev.code = ABS_PRESSURE)) :
    (apply_event e ev).pressure = e.pressure := by
  unfold apply_event
  split_ifs with h1 h2 h3 h4 <;> first | rfl | exact absurd ⟨h1, h4⟩ h

theorem process_batch_x (e : touchpad_event) (l : List input_event)
    (h : ∀ ev ∈ l, ¬(ev.type = EV_ABS ∧ ev.code = ABS_X)) :
    (process_batch e l).x = e.x := by
  induction l generalizing e with
  | nil => rfl
  | cons a t ih =>
      simp only [process_batch]
      rw [ih _ (fun ev hv => h ev (List.mem_cons_of_mem _ hv))]
      exact apply_event_x e a (h a (List.mem_cons_self _ _))

theorem process_batch_y (e : touchpad_event) (l : List input_event)
    (h : ∀ ev ∈ l, ¬(ev.type = EV_ABS ∧ ev.code = ABS_Y)) :
    (process_batch e l).y = e.y := by
  induction l generalizing e with
  | nil => rfl
  | cons a t ih =>
      simp only [process_batch]
      rw [ih _ (fun ev hv => h ev (List.mem_cons_of_mem _ hv))]
      exact apply_event_y e a (h a (List.mem_cons_self _ _))

theorem process_batch_pressure (e : touchpad_event) (l : List input_event)
    (h : ∀ ev ∈ l, ¬(ev.type = EV_ABS ∧ ev.code = ABS_PRESSURE)) :
    (process_batch e l).pressure = e.pressure := by
  induction l generalizing e with
  | nil => rfl
  | cons a t ih =>
      simp only [process_batch]
      rw [ih _ (fun ev hv => h ev (List.mem_cons_of_mem _ hv))]
      exact apply_event_pressure e a (h a (List.mem_cons_self _ _))

theorem fetch_eq_decode (rd : Int) (buf : List input_event) (e : touchpad_event)
    (h : sizeof_input_event ≤ rd) :
    fetch_touchpad_event rd buf e =
      (0, decode_batch (buf.take (rd.toNat / sizeof_input_event.toNat))) := by
  unfold fetch_touchpad_event
  rw [if_neg (not_lt.mpr h)]
  rfl

theorem bytes_count (len : Nat) :
    (sizeof_input_event * (len : Int)).toNat / sizeof_input_event.toNat = len := by
  have h : sizeof_input_event * (len : Int) = ((24 * len : Nat) : Int) := by
    unfold sizeof_input_event
    push_cast
    ring
  have h2 : sizeof_input_event.toNat = 24 := rfl
  rw [h, Int.toNat_natCast, h2]
  omega

theorem batch_bytes_ge (len : Nat) (h : 1 ≤ len) :
    sizeof_input_event ≤ sizeof_input_event * (len : Int) := by
  unfold sizeof_input_event
  omega

theorem fetch_full_batch (batch : List input_event) (e : touchpad_event)
    (h : 1 ≤ batch.length) :
    fetch_touchpad_event (sizeof_input_event * (batch.length : Int)) batch e =
      (0, decode_batch batch) := by
  rw [fetch_eq_decode _ _ _ (batch_bytes_ge _ h), bytes_count, List.take_length]

theorem apply_event_x_set (e : touchpad_event) (ev : input_event)
    (h1 : ev.type = EV_ABS) (h2 : ev.code = ABS_X) :
    (apply_event e ev).x = ev.value := by
  unfold apply_event
  rw [if_pos h1, if_pos h2]

/-- A freshly reset sample, as produced by `reset_touchpad_event`. -/
def fresh_sample : touchpad_event :=
  { x := -1, y := -1, pressure := -1, seconds := 0, useconds := 0 }

theorem process_batch_axes_congr (e e' : touchpad_event) (l : List input_event)
    (hx : e.x = e'.x) (hy : e.y = e'.y) (hp : e.pressure = e'.pressure) :
    (process_batch e l).x = (process_batch e' l).x
    ∧ (process_batch e l).y = (process_batch e' l).y
    ∧ (process_batch e l).pressure = (process_batch e' l).pressure := by
  induction l generalizing e e' with
  | nil => exact ⟨hx, hy, hp⟩
  | cons a t ih =>
      simp only [process_batch]
      apply ih
      all_goals
        unfold apply_event
        split_ifs <;> simp [hx, hy, hp]

theorem decode_batch_axes (evs : List input_event) :
    (decode_batch evs).x = (process_batch fresh_sample evs).x
    ∧ (decode_batch evs).y = (process_batch fresh_sample evs).y
    ∧ (decode_batch evs).pressure = (process_batch fresh_sample evs).pressure := by
  cases evs with
  | nil => exact ⟨rfl, rfl, rfl⟩
  | cons f rest =>
      unfold decode_batch
      exact process_batch_axes_congr _ _ _ rfl rfl rfl

theorem decode_batch_x (evs : List input_event) :
    (decode_batch evs).x = (process_batch fresh_sample evs).x :=
  (decode_batch_axes evs).1

theorem decode_batch_y (evs : List input_event) :
    (decode_batch evs).y = (process_batch fresh_sample evs).y :=
  (decode_batch_axes evs).2.1

theorem decode_batch_pressure (evs : List input_event) :
    (decode_batch evs).pressure = (process_batch fresh_sample evs).pressure :=
  (decode_batch_axes evs).2.2

theorem decode_batch_seconds (f : input_event) (rest : List input_event) :
    (decode_batch (f :: rest)).seconds = f.tv_sec
    ∧ (decode_batch (f :: rest)).useconds = f.tv_usec := by
  unfold decode_batch
  exact ⟨(process_batch_seconds _ _).1, (process_batch_seconds _ _).2⟩

theorem touchpad_event_eq (e e' : touchpad_event) (hx : e.x = e'.x) (hy : e.y = e'.y)
    (hp : e.pressure = e'.pressure) (hs : e.seconds = e'.seconds)
    (hu : e.useconds = e'.useconds) : e = e' := by
  cases e
  cases e'
  simp_all

/-! Concrete inputs used to instantiate the theorems. -/

/-- An all-zero output record. -/
def tp_zero : touchpad_event :=
  { x := 0, y := 0, pressure := 0, seconds := 0, useconds := 0 }

/-- An output record left over from a previous call with `x = 100`. -/
def tp_hundred : touchpad_event :=
  { x := 100, y := 200, pressure := 50, seconds := 7, useconds := 8 }

/-- A sync marker event (touchpad-irrelevant). -/
def sync_ev : input_event :=
  { tv_sec := 10, tv_usec := 500, type := EV_SYN, code := SYN_REPORT, value := 0 }

/-- An X-axis event with value 100. -/
def first_x_ev : input_event :=
  { tv_sec := 10, tv_usec := 500, type := EV_ABS, code := ABS_X, value := 100 }

/-- An X-axis event with value 512. -/
def second_x_ev : input_event :=
  { tv_sec := 10, tv_usec := 500, type := EV_ABS, code := ABS_X, value := 512 }

/-- Two X-axis events separated by a sync marker. -/
def last_x_batch : List input_event := [first_x_ev, sync_ev, second_x_ev]

/-- A batch holding only a sync marker: no touchpad-relevant event. -/
def sync_only_batch : List input_event := [sync_ev]

/-- A batch holding only an X-axis event with the legitimate value `-1`. -/
def x_neg_batch : List input_event :=
  [{ tv_sec := 10, tv_usec := 500, type := EV_ABS, code := ABS_X, value := -1 }]

/-- The concrete three-event scenario from the spec. -/
def syn_batch : List input_event :=
  [{ tv_sec := 10, tv_usec := 500, type := EV_ABS, code := ABS_X, value := 512 },
   { tv_sec := 10, tv_usec := 500, type := EV_ABS, code := ABS_Y, value := 300 },
   { tv_sec := 10, tv_usec := 500, type := EV_SYN, code := SYN_REPORT, value := 0 }]

/-- A batch whose single X-axis event is not the first event and carries a
timestamp different from the first event's. -/
def single_x_bad_batch : List input_event :=
  [{ tv_sec := 1, tv_usec := 1, type := EV_SYN, code := SYN_REPORT, value := 0 },
   { tv_sec := 10, tv_usec := 500, type := EV_ABS, code := ABS_X, value := 7 }]

/-- Two full records in the buffer, of which a short read will keep one. -/
def two_event_buf : List input_event :=
  [{ tv_sec := 3, tv_usec := 4, type := EV_ABS, code := ABS_X, value := 11 },
   { tv_sec := 3, tv_usec := 4, type := EV_ABS, code := ABS_Y, value := 22 }]

/-- C2: `fetch_touchpad_event` fails with status 1 (ShortRead) exactly when
the read returned fewer bytes than one `input_event` record (including zero
and negative returns); this is the only failure mode (status is 0 or 1),
and on failure the caller's record is not populated. -/
theorem fetch_shortread_iff (rd : Int) (buf : List input_event) (e : touchpad_event) :
    ((fetch_touchpad_event rd buf e).1 = 1 ↔ rd < sizeof_input_event)
    ∧ ((fetch_touchpad_event rd buf e).1 = 0 ∨ (fetch_touchpad_event rd buf e).1 = 1)
    ∧ ((fetch_touchpad_event rd buf e).1 = 1 → (fetch_touchpad_event rd buf e).2 = e) := by
  by_cases h : rd < sizeof_input_event
  · have hr : fetch_touchpad_event rd buf e = (1, e) := by
      unfold fetch_touchpad_event
      rw [if_pos h]
    rw [hr]
    exact ⟨⟨fun _ => h, fun _ => rfl⟩, Or.inr rfl, fun _ => rfl⟩
  · rw [fetch_eq_decode rd buf e (not_lt.mp h)]
    exact ⟨⟨fun hc => absurd hc Nat.zero_ne_one, fun hc => absurd hc h⟩, Or.inl rfl,
      fun hc => absurd hc Nat.zero_ne_one⟩

/-- C4: the axis classification is total: every (type, code) pair yields
exactly one of the four outcomes; any pair whose type is not `EV_ABS` —
including key, sync and relative-motion events — is irrelevant, never an
error. -/
theorem classify_axis_total (type code : Nat) :
    (classify_axis type code = Axis.X ∨ classify_axis type code = Axis.Y ∨
      classify_axis type code = Axis.Pressure ∨ classify_axis type code = Axis.None)
    ∧ (type ≠ EV_ABS → classify_axis type code = Axis.None)
    ∧ classify_axis EV_KEY code = Axis.None
    ∧ classify_axis EV_SYN code = Axis.None
    ∧ classify_axis EV_REL code = Axis.None := by
  refine ⟨?_, ?_, ?_, ?_, ?_⟩
  · cases hc : classify_axis type code
    · exact Or.inl rfl
    · exact Or.inr (Or.inl rfl)
    · exact Or.inr (Or.inr (Or.inl rfl))
    · exact Or.inr (Or.inr (Or.inr rfl))
  · intro h
    unfold classify_axis
    rw [if_neg h]
  · unfold classify_axis
    rw [if_neg (by decide)]
  · unfold classify_axis
    rw [if_neg (by decide)]
  · unfold classify_axis
    rw [if_neg (by decide)]

theorem classify_axis_total_witness :
    (1 : Nat) ≠ EV_ABS ∧ classify_axis 1 33 = Axis.None :=
  ⟨by decide, (classify_axis_total 1 33).2.1 (by decide)⟩

/-- C6: on the concrete batch [X=512, Y=300, SYN_REPORT] all at time
(10, 500), the fetch succeeds with sample {x = 512, y = 300,
pressure absent, seconds = 10, useconds = 500}; the sync marker classifies
as irrelevant. -/
theorem fetch_concrete_scenario (e0 : touchpad_event) :
    fetch_touchpad_event (sizeof_input_event * 3) syn_batch e0 =
      (0, { x := 512, y := 300, pressure := -1, seconds := 10, useconds := 500 })
    ∧ classify_axis EV_SYN SYN_REPORT = Axis.None :=
  ⟨rfl, rfl⟩

/-- C8: the sentinel scheme cannot distinguish a legitimate X value of
`-1` from an absent X: two distinct one-event batches — one with an X
event of value `-1`, one with no X event at all, equal first timestamps —
produce identical samples. -/
theorem absent_value_ambiguity :
    x_neg_batch ≠ sync_only_batch
    ∧ (∃ ev ∈ x_neg_batch, ev.type = EV_ABS ∧ ev.code = ABS_X ∧ ev.value = -1)
    ∧ (∀ ev ∈ sync_only_batch, ¬(ev.type = EV_ABS ∧ ev.code = ABS_X))
    ∧ fetch_touchpad_event sizeof_input_event x_neg_batch tp_zero =
        fetch_touchpad_event sizeof_input_event sync_only_batch tp_zero := by
  decide

/-- C9: when the read is short, the error return happens before
`reset_touchpad_event`, so the caller's record is returned entirely
unchanged alongside status 1. -/
theorem fetch_shortread_preserves (rd : Int) (buf : List input_event)
    (e : touchpad_event) (h : rd < sizeof_input_event) :
    fetch_touchpad_event rd buf e = (1, e) := by
  unfold fetch_touchpad_event
  rw [if_pos h]

theorem fetch_shortread_preserves_witness :
    ((0 : Int) < sizeof_input_event)
    ∧ fetch_touchpad_event 0 two_event_buf tp_hundred = (1, tp_hundred) :=
  ⟨by decide, fetch_shortread_preserves 0 two_event_buf tp_hundred (by decide)⟩

/-- C10: whenever at least one full record was read, the call succeeds and
processes exactly `rd / sizeof(struct input_event)` records — trailing
bytes of a partial record are silently discarded. -/
theorem fetch_discards_trailing_bytes (rd : Int) (buf : List input_event)
    (e : touchpad_event) (h : sizeof_input_event ≤ rd) :
    (fetch_touchpad_event rd buf e).1 = 0
    ∧ (fetch_touchpad_event rd buf e).2 =
        decode_batch (buf.take (rd.toNat / sizeof_input_event.toNat)) := by
  rw [fetch_eq_decode rd buf e h]
  exact ⟨rfl, rfl⟩

theorem fetch_discards_trailing_bytes_witness :
    (sizeof_input_event ≤ (30 : Int))
    ∧ (fetch_touchpad_event 30 two_event_buf tp_zero).1 = 0
    ∧ (fetch_touchpad_event 30 two_event_buf tp_zero).2 =
        decode_batch (two_event_buf.take ((30 : Int).toNat / sizeof_input_event.toNat)) :=
  ⟨by decide, (fetch_discards_trailing_bytes 30 two_event_buf tp_zero (by decide)).1,
    (fetch_discards_trailing_bytes 30 two_event_buf tp_zero (by decide)).2⟩

/-- C1: within one batch a later event for the same axis overwrites an
earlier one: if the batch's X-axis events are exactly `ex1` then `ex2`
(any other events, before, between or after, not being X-axis events),
the returned sample's `x` equals `ex2`'s value. -/
theorem fetch_last_x_wins
    (l1 l2 l3 : List input_event) (ex1 ex2 : input_event) (e0 : touchpad_event)
    (hx1 : ex1.type = EV_ABS ∧ ex1.code = ABS_X)
    (hx2 : ex2.type = EV_ABS ∧ ex2.code = ABS_X)
    (h1 : ∀ ev ∈ l1, ¬(ev.type = EV_ABS ∧ ev.code = ABS_X))
    (h2 : ∀ ev ∈ l2, ¬(ev.type = EV_ABS ∧ ev.code = ABS_X))
    (h3 : ∀ ev ∈ l3, ¬(ev.type = EV_ABS ∧ ev.code = ABS_X)) :
    ((fetch_touchpad_event
        (sizeof_input_event * (((l1 ++ ex1 :: l2 ++ ex2 :: l3).length : Nat) : Int))
        (l1 ++ ex1 :: l2 ++ ex2 :: l3) e0).2).x = ex2.value := by
  rw [fetch_full_batch _ _ (by simp only [List.length_append, List.length_cons]; omega)]
  show (decode_batch (l1 ++ ex1 :: l2 ++ ex2 :: l3)).x = ex2.value
  rw [decode_batch_x]
  have hsplit : l1 ++ ex1 :: l2 ++ ex2 :: l3 = (l1 ++ ex1 :: l2) ++ ex2 :: l3 := by
    simp
  rw [hsplit, process_batch_append]
  simp only [process_batch]
  rw [process_batch_x _ _ h3]
  exact apply_event_x_set _ _ hx2.1 hx2.2

theorem fetch_last_x_wins_witness :
    ((fetch_touchpad_event
        (sizeof_input_event * (((last_x_batch.length : Nat) : Int)))
        last_x_batch tp_zero).2).x = 512 := by
  have h := fetch_last_x_wins [] [sync_ev] [] first_x_ev second_x_ev tp_zero
    (by decide) (by decide) (by decide) (by decide) (by decide)
  exact h

/-- C3: for a non-empty batch with no touchpad-relevant events, the sample
has all three axis fields absent (`-1`) and the timestamp of the batch's
first event, whatever that event's type. -/
theorem fetch_no_relevant (f : input_event) (rest : List input_event) (e0 : touchpad_event)
    (hirr : ∀ ev ∈ f :: rest,
      ¬(ev.type = EV_ABS ∧ (ev.code = ABS_X ∨ ev.code = ABS_Y ∨ ev.code = ABS_PRESSURE))) :
    (fetch_touchpad_event (sizeof_input_event * ((((f :: rest).length : Nat)) : Int))
        (f :: rest) e0).2 =
      { x := -1, y := -1, pressure := -1, seconds := f.tv_sec, useconds := f.tv_usec } := by
  rw [fetch_full_batch _ _ (by simp)]
  show decode_batch (f :: rest) = _
  have hx : (decode_batch (f :: rest)).x = -1 := by
    rw [decode_batch_x,
      process_batch_x _ _ (fun ev hv hc => hirr ev hv ⟨hc.1, Or.inl hc.2⟩)]
    rfl
  have hy : (decode_batch (f :: rest)).y = -1 := by
    rw [decode_batch_y,
      process_batch_y _ _ (fun ev hv hc => hirr ev hv ⟨hc.1, Or.inr (Or.inl hc.2)⟩)]
    rfl
  have hp : (decode_batch (f :: rest)).pressure = -1 := by
    rw [decode_batch_pressure,
      process_batch_pressure _ _ (fun ev hv hc => hirr ev hv ⟨hc.1, Or.inr (Or.inr hc.2)⟩)]
    rfl
  have hs := decode_batch_seconds f rest
  exact touchpad_event_eq _ _ hx hy hp hs.1 hs.2

theorem fetch_no_relevant_witness :
    (∀ ev ∈ sync_ev :: ([] : List input_event),
      ¬(ev.type = EV_ABS ∧ (ev.code = ABS_X ∨ ev.code = ABS_Y ∨ ev.code = ABS_PRESSURE)))
    ∧ (fetch_touchpad_event
        (sizeof_input_event * ((((sync_ev :: ([] : List input_event)).length : Nat)) : Int))
        (sync_ev :: []) tp_zero).2 =
      { x := -1, y := -1, pressure := -1, seconds := sync_ev.tv_sec,
        useconds := sync_ev.tv_usec } :=
  ⟨by decide, fetch_no_relevant sync_ev [] tp_zero (by decide)⟩

/-- C5 counterexample: a batch whose unique X-axis event carries value 7 at
time (10, 500), with no Y or pressure events, yet the returned sample is
not `{x = 7, y = -1, pressure = -1, seconds = 10, useconds = 500}` —
the timestamp is taken from the batch's first event, a sync marker at
time (1, 1), not from the X event. -/
theorem fetch_single_x_counterexample :
    (single_x_bad_batch.filter
        (fun ev => decide (ev.type = EV_ABS ∧ ev.code = ABS_X)) =
      [{ tv_sec := 10, tv_usec := 500, type := EV_ABS, code := ABS_X, value := 7 }])
    ∧ (∀ ev ∈ single_x_bad_batch,
        ¬(ev.type = EV_ABS ∧ (ev.code = ABS_Y ∨ ev.code = ABS_PRESSURE)))
    ∧ (fetch_touchpad_event (sizeof_input_event * 2) single_x_bad_batch tp_zero).2 ≠
      { x := 7, y := -1, pressure := -1, seconds := 10, useconds := 500 } := by
  decide

/-- C5 (amended): for a batch whose only touchpad-relevant event is a
single X-axis event `ex`, the sample is `{x = ex.value, y = -1,
pressure = -1}` with the timestamp of the batch's FIRST event `f` (which
equals (s, us) only when the first event carries that time). -/
theorem fetch_single_x
    (l1 l2 : List input_event) (ex f : input_event) (e0 : touchpad_event)
    (hx : ex.type = EV_ABS ∧ ex.code = ABS_X)
    (h1 : ∀ ev ∈ l1,
      ¬(ev.type = EV_ABS ∧ (ev.code = ABS_X ∨ ev.code = ABS_Y ∨ ev.code = ABS_PRESSURE)))
    (h2 : ∀ ev ∈ l2,
      ¬(ev.type = EV_ABS ∧ (ev.code = ABS_X ∨ ev.code = ABS_Y ∨ ev.code = ABS_PRESSURE)))
    (hf : (l1 ++ ex :: l2).head? = some f) :
    (fetch_touchpad_event (sizeof_input_event * (((l1 ++ ex :: l2).length : Nat) : Int))
        (l1 ++ ex :: l2) e0).2 =
      { x := ex.value, y := -1, pressure := -1,
        seconds := f.tv_sec, useconds := f.tv_usec } := by
  rw [fetch_full_batch _ _ (by simp only [List.length_append, List.length_cons]; omega)]
  show decode_batch (l1 ++ ex :: l2) = _
  obtain ⟨tail, htail⟩ : ∃ tail, l1 ++ ex :: l2 = f :: tail := by
    cases hl : l1 ++ ex :: l2 with
    | nil => rw [hl] at hf; exact absurd hf (by simp)
    | cons b tail =>
        rw [hl, List.head?_cons] at hf
        exact ⟨tail, by rw [Option.some.inj hf]⟩
  have hnoY : ∀ ev ∈ l1 ++ ex :: l2, ¬(ev.type = EV_ABS ∧ ev.code = ABS_Y) := by
    intro ev hv hc
    rcases List.mem_append.mp hv with hmem | hmem
    · exact h1 ev hmem ⟨hc.1, Or.inr (Or.inl hc.2)⟩
    · rcases List.mem_cons.mp hmem with heq | hmem2
      · subst heq
        rw [hx.2] at hc
        exact absurd hc.2 (by decide)
      · exact h2 ev hmem2 ⟨hc.1, Or.inr (Or.inl hc.2)⟩
  have hnoP : ∀ ev ∈ l1 ++ ex :: l2, ¬(ev.type = EV_ABS ∧ ev.code = ABS_PRESSURE) := by
    intro ev hv hc
    rcases List.mem_append.mp hv with hmem | hmem
    · exact h1 ev hmem ⟨hc.1, Or.inr (Or.inr hc.2)⟩
    · rcases List.mem_cons.mp hmem with heq | hmem2
      · subst heq
        rw [hx.2] at hc
        exact absurd hc.2 (by decide)
      · exact h2 ev hmem2 ⟨hc.1, Or.inr (Or.inr hc.2)⟩
  have hxv : (decode_batch (l1 ++ ex :: l2)).x = ex.value := by
    rw [decode_batch_x, process_batch_append]
    simp only [process_batch]
    rw [process_batch_x _ _ (fun ev hv hc => h2 ev hv ⟨hc.1, Or.inl hc.2⟩)]
    exact apply_event_x_set _ _ hx.1 hx.2
  have hyv : (decode_batch (l1 ++ ex :: l2)).y = -1 := by
    rw [decode_batch_y, process_batch_y _ _ hnoY]
    rfl
  have hpv : (decode_batch (l1 ++ ex :: l2)).pressure = -1 := by
    rw [decode_batch_pressure, process_batch_pressure _ _ hnoP]
    rfl
  have hsv : (decode_batch (l1 ++ ex :: l2)).seconds = f.tv_sec
      ∧ (decode_batch (l1 ++ ex :: l2)).useconds = f.tv_usec := by
    rw [htail]
    exact decode_batch_seconds f tail
  exact touchpad_event_eq _ _ hxv hyv hpv hsv.1 hsv.2

theorem fetch_single_x_witness :
    (fetch_touchpad_event
        (sizeof_input_event * (((([sync_ev] ++ first_x_ev :: []).length : Nat)) : Int))
        ([sync_ev] ++ first_x_ev :: []) tp_zero).2 =
      { x := first_x_ev.value, y := -1, pressure := -1,
        seconds := sync_ev.tv_sec, useconds := sync_ev.tv_usec } :=
  fetch_single_x [sync_ev] [] first_x_ev sync_ev tp_zero
    (by decide) (by decide) (by decide) (by decide)

/-- C7: the fetch is stateless across calls: on a successful read the
resulting sample does not depend on the caller's record left over from a
previous call, and a batch with no X-axis event yields an absent `x`
(`-1`) even if the previous record held a concrete `x`. -/
theorem fetch_stateless (rd : Int) (buf : List input_event) (a b : touchpad_event)
    (h : sizeof_input_event ≤ rd) :
    (fetch_touchpad_event rd buf a).2 = (fetch_touchpad_event rd buf b).2
    ∧ ((∀ ev ∈ buf, ¬(ev.type = EV_ABS ∧ ev.code = ABS_X)) →
        ((fetch_touchpad_event rd buf a).2).x = -1) := by
  rw [fetch_eq_decode rd buf a h, fetch_eq_decode rd buf b h]
  refine ⟨rfl, fun hno => ?_⟩
  show (decode_batch _).x = -1
  rw [decode_batch_x,
    process_batch_x _ _ (fun ev hv => hno ev (List.take_subset _ _ hv))]
  rfl

theorem fetch_stateless_witness :
    (fetch_touchpad_event 24 sync_only_batch tp_hundred).2 =
      (fetch_touchpad_event 24 sync_only_batch tp_zero).2
    ∧ ((fetch_touchpad_event 24 sync_only_batch tp_hundred).2).x = -1 :=
  ⟨(fetch_stateless 24 sync_only_batch tp_hundred tp_zero (by decide)).1,
    (fetch_stateless 24 sync_only_batch tp_hundred tp_zero (by decide)).2 (by decide)⟩

end Touchpadlib
